import Mathlib

set_option maxRecDepth 8000

namespace Mitra

/-!
# Verification of the Mitra Persian-calendar CLI against its specification

This file shallowly embeds the date logic of the Mitra repository
(`src/mitra-core/src/logic.rs`, `src/src/handlers.rs`, `src/src/utils.rs`,
`src/src/events.rs`) together with the calendar engine it delegates to.
The engine itself (the `parsidate` crate) is not part of the repository
sources, so its operations are modelled from the specification (§4.1–§4.4),
as indicated on each definition.

Conventions: Rust `i32`/`i64` become `Int`, `u32`/`u64` become `Nat`
(with explicit bounds where overflow matters), fallible code returns
`Except`, and code that can reach a `panic!`/`unreachable!` returns the
three-valued `RunResult`.
-/

/-- Modelled from the spec (§4.1, §9): the `parsidate` crate's
`ParsiDate::is_persian_leap_year(year: i32) -> bool`, a fixed 33-year
cyclical rule (leap years are those whose year mod 33 falls in
{1, 5, 9, 13, 17, 22, 26, 30}), which reproduces the reference fixtures of
§8 (1403 is leap).  Rust `%` on `i32` is truncated remainder, i.e.
`Int.tmod`. -/
def is_leap_year (year : Int) : Bool :=
  let r := year.tmod 33
  r == 1 || r == 5 || r == 9 || r == 13 || r == 17 || r == 22 || r == 26 || r == 30

/-- Modelled from the spec (§3, §6, glossary): the `parsidate` crate's
`ParsiDate::days_in_month(year: i32, month: u32) -> u32`: 31 days for
months 1–6, 30 for months 7–11, 29 or 30 for Esfand (month 12) according
to the leap-year rule, and 0 for an invalid month number. -/
def days_in_month (year : Int) (month : Nat) : Nat :=
  if 1 ≤ month ∧ month ≤ 6 then 31
  else if 7 ≤ month ∧ month ≤ 11 then 30
  else if month = 12 then (if is_leap_year year then 30 else 29)
  else 0

/-- Nat-year version of the leap-year rule, used by the day-count
machinery (valid Persian years are ≥ 1). -/
def pLeap (y : Nat) : Bool := is_leap_year (y : Int)

/-- Nat-year version of `days_in_month`. -/
def pMonthLen (y : Nat) (m : Nat) : Nat := days_in_month (y : Int) m

/-- Length in days of Persian year `y` (spec §4.2: 365 plus a 366th day
for leap years). -/
def pYearLen (y : Nat) : Nat := 365 + (if pLeap y then 1 else 0)

/-! ## Generic day-count machinery

The spec (§4.2) describes conversion through a day count obtained by
summing elapsed year lengths and month lengths, and the reverse direction
as the inverse of that summation.  `cumLen` is the summation and
`splitDays` the inverse search, generic in the length function so the
same machinery serves Persian years, Gregorian years and months. -/

/-- Sum of `len a + len (a+1) + ... + len (a+k-1)`. -/
def cumLen (len : Nat → Nat) (a : Nat) : Nat → Nat
  | 0 => 0
  | k + 1 => cumLen len a k + len (a + k)

/-- Fueled linear search inverting `cumLen`: starting at index `a` with
`n` remaining days, step over whole blocks of size `len` until fewer than
one block remains, returning the reached index and the remainder. -/
def splitDays (len : Nat → Nat) : Nat → Nat → Nat → Nat × Nat
  | 0, a, n => (a, n)
  | fuel + 1, a, n => if n < len a then (a, n) else splitDays len fuel (a + 1) (n - len a)

/-! ## Data model (spec §3) -/

/-- The `parsidate::ParsiDate` value type: a `(year, month, day)` triple
(Rust fields `year: i32`, `month: u32`, `day: u32`; valid instances have
`year ∈ [1, 9999]`). -/
structure ParsiDate where
  year : Nat
  month : Nat
  day : Nat
deriving DecidableEq, Repr

/-- The `parsidate::ParsiDateTime` value type: a `ParsiDate` plus a
time-of-day. -/
structure ParsiDateTime where
  date : ParsiDate
  hour : Nat
  minute : Nat
  second : Nat
deriving DecidableEq, Repr

/-- The Gregorian (`chrono::NaiveDate`) date triple. -/
structure NaiveDate where
  year : Nat
  month : Nat
  day : Nat
deriving DecidableEq, Repr

/-- The Gregorian (`chrono::NaiveDateTime`) date plus time-of-day. -/
structure NaiveDateTime where
  date : NaiveDate
  hour : Nat
  minute : Nat
  second : Nat
deriving DecidableEq, Repr

/-- Validity invariant of `ParsiDate` (spec §3): supported year range
[1, 9999], month in [1, 12], day in [1, days_in_month]. -/
def ParsiDate.isValid (d : ParsiDate) : Prop :=
  1 ≤ d.year ∧ d.year ≤ 9999 ∧ 1 ≤ d.month ∧ d.month ≤ 12 ∧
    1 ≤ d.day ∧ d.day ≤ pMonthLen d.year d.month

instance (d : ParsiDate) : Decidable d.isValid := by
  unfold ParsiDate.isValid; infer_instance

/-- Validity invariant of `ParsiDateTime` (spec §3). -/
def ParsiDateTime.isValid (dt : ParsiDateTime) : Prop :=
  dt.date.isValid ∧ dt.hour ≤ 23 ∧ dt.minute ≤ 59 ∧ dt.second ≤ 59

instance (dt : ParsiDateTime) : Decidable dt.isValid := by
  unfold ParsiDateTime.isValid; infer_instance

/-! ## Error model (spec §4.5) and the error mapping of `src/src/utils.rs` -/

/-- The closed set of parse-failure kinds (`parsidate::ParseErrorKind`). -/
inductive ParseErrorKind where
  | FormatMismatch
  | InvalidNumber
  | InvalidDateValue
  | InvalidTimeValue
  | UnsupportedSpecifier
  | InvalidMonthName
  | InvalidWeekdayName
deriving DecidableEq, Repr

/-- The shared component-level error taxonomy (`parsidate::DateError`). -/
inductive DateError where
  | ParseError (kind : ParseErrorKind)
  | InvalidDate
  | InvalidTime
  | GregorianConversionError
  | ArithmeticOverflow
  | InvalidOrdinal
deriving DecidableEq, Repr

/-- Model of `anyhow::Error` as it flows through Mitra: either a typed
component error forwarded untouched (`raw`) or an error whose payload is
presentation text built by a mapping/`context` call (`rendered`). -/
inductive MitraError where
  | raw (e : DateError)
  | rendered (msg : String)
deriving DecidableEq, Repr

/-- Outcome of running a Rust function that returns `Result` but may also
hit a `panic!`/`unreachable!`. -/
inductive RunResult (α : Type) where
  | ok (a : α)
  | err (e : MitraError)
  | panic (msg : String)
deriving DecidableEq, Repr

/-- Map over the success value of a `RunResult`. -/
def RunResult.map {α β : Type} (f : α → β) : RunResult α → RunResult β
  | .ok a => .ok (f a)
  | .err e => .err e
  | .panic m => .panic m

/-- The human-readable text chosen by `map_parsidate_error` in
`src/src/utils.rs` for each `DateError` variant. -/
def parsidate_error_text (err : DateError) : String :=
  match err with
  | .ParseError kind =>
    let kind_msg := match kind with
      | .FormatMismatch => "input string does not match expected format or has extra characters"
      | .InvalidNumber => "could not parse number, required digits mismatch, or value out of range"
      | .InvalidDateValue => "parsed values form a logically invalid date (e.g., day 31 in Mehr, Esfand 30 in non-leap year)"
      | .InvalidTimeValue => "parsed values form a logically invalid time (e.g., hour 24, minute 60)"
      | .UnsupportedSpecifier => "format pattern contains specifier unsupported for parsing (e.g., %A, %j)"
      | .InvalidMonthName => "could not recognize Persian month name in input"
      | .InvalidWeekdayName => "could not recognize Persian weekday name in input"
    "Parse error: " ++ kind_msg
  | .InvalidDate => "Operation resulted in an invalid date"
  | .InvalidTime => "Operation resulted in an invalid time"
  | .GregorianConversionError => "Gregorian conversion failed. Input might be outside supported range (e.g., before 622 AD)"
  | .ArithmeticOverflow => "Date arithmetic resulted in overflow/underflow or went outside supported year range [1, 9999]"
  | .InvalidOrdinal => "Invalid ordinal day number used"

/-- `map_parsidate_error` from `src/src/utils.rs` (the function
`map_mitra_error` used by `mitra-core/src/logic.rs` is the same mapping;
its defining file is not among the sources): builds
`anyhow!("Error while {}: {}", context_msg, base_message)` — a rendered
presentation-text error. -/
def map_parsidate_error (err : DateError) (context_msg : String) : MitraError :=
  .rendered ("Error while " ++ context_msg ++ ": " ++ parsidate_error_text err)

/-! ## Persian day counts (spec §4.2) -/

/-- Days in all Persian years before year `y` (day count of 1 Farvardin
of year `y` relative to the epoch 1/1/1). -/
def pDaysBeforeYear (y : Nat) : Nat := cumLen pYearLen 1 (y - 1)

/-- Days in year `y` before month `m` (fixed month-length table). -/
def pDaysBeforeMonth (y m : Nat) : Nat := cumLen (pMonthLen y) 1 (m - 1)

/-- Modelled from the spec (§4.2): the Persian date → day-count step:
whole elapsed years (leap-aware) plus elapsed whole months plus
day-of-month minus one. -/
def pToDays (d : ParsiDate) : Nat :=
  pDaysBeforeYear d.year + pDaysBeforeMonth d.year d.month + (d.day - 1)

/-- Modelled from the spec (§4.2): the inverse of `pToDays`, by
decomposing the day count first into a year then a month (supported
years reach 9999, so the year search gets fuel 9998). -/
def pFromDays (n : Nat) : ParsiDate :=
  let yr := splitDays pYearLen 9998 1 n
  let md := splitDays (pMonthLen yr.1) 11 1 yr.2
  ⟨yr.1, md.1, md.2 + 1⟩

/-! ## Gregorian day counts (spec §4.2: standard proleptic Gregorian
algorithm) -/

/-- Proleptic Gregorian leap-year rule. -/
def gregorianLeap (y : Nat) : Bool :=
  (y % 4 == 0 && y % 100 != 0) || y % 400 == 0

/-- Gregorian month lengths (leap-aware February). -/
def gMonthLen (y m : Nat) : Nat :=
  match m with
  | 1 => 31
  | 2 => if gregorianLeap y then 29 else 28
  | 3 => 31
  | 4 => 30
  | 5 => 31
  | 6 => 30
  | 7 => 31
  | 8 => 31
  | 9 => 30
  | 10 => 31
  | 11 => 30
  | 12 => 31
  | _ => 0

/-- Length in days of Gregorian year `y`. -/
def gYearLen (y : Nat) : Nat := 365 + (if gregorianLeap y then 1 else 0)

/-- Days in all Gregorian years before year `y` (day 0 is 0001-01-01). -/
def gDaysBeforeYear (y : Nat) : Nat := cumLen gYearLen 1 (y - 1)

/-- Days in Gregorian year `y` before month `m`. -/
def gDaysBeforeMonth (y m : Nat) : Nat := cumLen (gMonthLen y) 1 (m - 1)

/-- Gregorian date → absolute day number (0 = 0001-01-01). -/
def gToDays (d : NaiveDate) : Nat :=
  gDaysBeforeYear d.year + gDaysBeforeMonth d.year d.month + (d.day - 1)

/-- Absolute day number → Gregorian date (fuel covers every day number
below year 10701, far beyond the image of the supported Persian range). -/
def gFromDays (n : Nat) : NaiveDate :=
  let yr := splitDays gYearLen 10700 1 n
  let md := splitDays (gMonthLen yr.1) 11 1 yr.2
  ⟨yr.1, md.1, md.2 + 1⟩

/-- Day number of the Persian epoch: Persian 1/1/1 aligns to 622 CE,
March 21 (spec §4.2 and the §8 fixture 1403/1/1 ↔ 2024-03-20). -/
def epochOffset : Nat := gToDays ⟨622, 3, 21⟩

/-! ## Conversion engine (spec §4.2) -/

/-- Modelled from the spec (§4.2): `ParsiDateTime::to_gregorian` of the
`parsidate` crate: day count plus epoch offset, decomposed by the
standard Gregorian algorithm; time-of-day passes through unchanged.
Fails for dates outside the supported range. -/
def toGregorian (pdt : ParsiDateTime) : Except DateError NaiveDateTime :=
  if pdt.isValid then
    .ok ⟨gFromDays (pToDays pdt.date + epochOffset), pdt.hour, pdt.minute, pdt.second⟩
  else .error .GregorianConversionError

/-- Modelled from the spec (§4.2): `ParsiDateTime::from_gregorian` of the
`parsidate` crate: the reverse decomposition; fails when the day number
precedes the Persian epoch or the resulting Persian date leaves the
supported range. -/
def fromGregorian (ndt : NaiveDateTime) : Except DateError ParsiDateTime :=
  let n := gToDays ndt.date
  if epochOffset ≤ n then
    let pd := pFromDays (n - epochOffset)
    if pd.isValid then .ok ⟨pd, ndt.hour, ndt.minute, ndt.second⟩
    else .error .GregorianConversionError
  else .error .GregorianConversionError

/-- `convert_to_gregorian` from `mitra-core/src/logic.rs`: delegates to
the engine and maps the error to presentation text. -/
def convert_to_gregorian (pdt : ParsiDateTime) : Except MitraError NaiveDateTime :=
  (toGregorian pdt).mapError (fun e => map_parsidate_error e "converting to Gregorian")

/-- `convert_from_gregorian` from `mitra-core/src/logic.rs`. -/
def convert_from_gregorian (ndt : NaiveDateTime) : Except MitraError ParsiDateTime :=
  (fromGregorian ndt).mapError (fun e => map_parsidate_error e "converting from Gregorian")

/-! ## Arithmetic engine (spec §4.3), modelled from the spec

These are the `parsidate` methods that `logic.rs` and `handlers.rs`
delegate to; the crate is not among the sources. -/

/-- Modelled from the spec (§4.3): `ParsiDateTime::add_days` — exact day
arithmetic through the day-count representation, `ArithmeticOverflow`
outside the supported year range [1, 9999]. -/
def add_days (pdt : ParsiDateTime) (delta : Int) : Except DateError ParsiDateTime :=
  let n : Int := (pToDays pdt.date : Int) + delta
  if 0 ≤ n ∧ n < (pDaysBeforeYear 10000 : Int) then
    .ok ⟨pFromDays n.toNat, pdt.hour, pdt.minute, pdt.second⟩
  else .error .ArithmeticOverflow

/-- Modelled from the spec (§4.3, §9): `ParsiDateTime::sub_days` with an
unsigned magnitude — the design invariant `sub(x) = add(-x)`. -/
def sub_days (pdt : ParsiDateTime) (delta : Nat) : Except DateError ParsiDateTime :=
  add_days pdt (-(delta : Int))

/-- Modelled from the spec (§4.3): `ParsiDateTime::add_months` — delta
added to the linearized month index, day clamped down to the target
month's length. -/
def add_months (pdt : ParsiDateTime) (delta : Int) : Except DateError ParsiDateTime :=
  let idx : Int := (pdt.date.year : Int) * 12 + ((pdt.date.month : Int) - 1) + delta
  let y : Int := idx.ediv 12
  let m : Nat := (idx.emod 12 + 1).toNat
  if 1 ≤ y ∧ y ≤ 9999 then
    .ok ⟨⟨y.toNat, m, min pdt.date.day (days_in_month y m)⟩, pdt.hour, pdt.minute, pdt.second⟩
  else .error .ArithmeticOverflow

/-- Modelled from the spec (§4.3, §9): `ParsiDateTime::sub_months`. -/
def sub_months (pdt : ParsiDateTime) (delta : Nat) : Except DateError ParsiDateTime :=
  add_months pdt (-(delta : Int))

/-- Modelled from the spec (§4.3): `ParsiDateTime::add_years` — month and
day kept, day clamped for the Esfand leap case. -/
def add_years (pdt : ParsiDateTime) (delta : Int) : Except DateError ParsiDateTime :=
  let y : Int := (pdt.date.year : Int) + delta
  if 1 ≤ y ∧ y ≤ 9999 then
    .ok ⟨⟨y.toNat, pdt.date.month, min pdt.date.day (days_in_month y pdt.date.month)⟩,
      pdt.hour, pdt.minute, pdt.second⟩
  else .error .ArithmeticOverflow

/-- Modelled from the spec (§4.3, §9): `ParsiDateTime::sub_years`. -/
def sub_years (pdt : ParsiDateTime) (delta : Nat) : Except DateError ParsiDateTime :=
  add_years pdt (-(delta : Int))

/-- Total elapsed seconds of a datetime since the Persian epoch (spec
§4.3: the absolute-instant representation for duration arithmetic). -/
def totalSeconds (pdt : ParsiDateTime) : Int :=
  (pToDays pdt.date : Int) * 86400 +
    (pdt.hour : Int) * 3600 + (pdt.minute : Int) * 60 + (pdt.second : Int)

/-- Reconstruct a datetime from elapsed seconds (spec §4.3: day rollover
included). -/
def fromTotalSeconds (t : Nat) : ParsiDateTime :=
  ⟨pFromDays (t / 86400), t % 86400 / 3600, t % 3600 / 60, t % 60⟩

/-- Modelled from the spec (§4.3): `ParsiDateTime::add_duration` —
exact arithmetic over absolute seconds, `ArithmeticOverflow` outside the
supported range. -/
def add_duration (pdt : ParsiDateTime) (secs : Int) : Except DateError ParsiDateTime :=
  let t : Int := totalSeconds pdt + secs
  if 0 ≤ t ∧ t < (pDaysBeforeYear 10000 : Int) * 86400 then
    .ok (fromTotalSeconds t.toNat)
  else .error .ArithmeticOverflow

/-- Modelled from the spec (§4.3, §9): `ParsiDateTime::sub_duration`. -/
def sub_duration (pdt : ParsiDateTime) (secs : Int) : Except DateError ParsiDateTime :=
  add_duration pdt (-secs)

/-- `chrono::Duration::hours` — hours expressed in seconds. -/
def Duration_hours (h : Int) : Int := h * 3600

/-- `chrono::Duration::minutes` — minutes expressed in seconds. -/
def Duration_minutes (m : Int) : Int := m * 60

/-- `chrono::Duration::seconds`. -/
def Duration_seconds (s : Int) : Int := s

/-- `i64::MAX`. -/
def i64_max : Nat := 9223372036854775807

/-- Rust `u64::try_into::<i64>()`: succeeds exactly when the magnitude
fits the signed range, otherwise fails (no wrapping). -/
def u64_try_into_i64 (n : Nat) : Except Unit Int :=
  if n ≤ i64_max then .ok (n : Int) else .error ()

/-- The `.map_err(|e| map_mitra_error(e, ctx))?` pattern of `logic.rs`
and `handlers.rs` lifted to `RunResult`: forwards success, renders the
component error with its operation context. -/
def exceptToRun {α : Type} (r : Except DateError α) (ctx : String) : RunResult α :=
  match r with
  | .ok a => .ok a
  | .error e => .err (map_parsidate_error e ctx)

/-! ## `mitra-core/src/logic.rs` -/

/-- `add_to_datetime` from `mitra-core/src/logic.rs`: the if-let chain
over the six duration units (Rust types `days: Option<i64>`,
`months/years: Option<i32>`, `hours/minutes/seconds: Option<i64>`), with
`unreachable!` when every unit is `None`. -/
def add_to_datetime (base_pdt : ParsiDateTime)
    (days months years hours minutes seconds : Option Int) : RunResult ParsiDateTime :=
  match days with
  | some d => exceptToRun (add_days base_pdt d) "adding days"
  | none => match months with
    | some m => exceptToRun (add_months base_pdt m) "adding months"
    | none => match years with
      | some y => exceptToRun (add_years base_pdt y) "adding years"
      | none => match hours with
        | some h => exceptToRun (add_duration base_pdt (Duration_hours h)) "adding hours"
        | none => match minutes with
          | some m => exceptToRun (add_duration base_pdt (Duration_minutes m)) "adding minutes"
          | none => match seconds with
            | some s => exceptToRun (add_duration base_pdt (Duration_seconds s)) "adding seconds"
            | none => .panic "No duration unit provided, should be caught by CLI parser."

/-- `sub_from_datetime` from `mitra-core/src/logic.rs`: unsigned
magnitudes (`u64`/`u32` become `Nat`); the hour/minute/second branches
first convert the `u64` magnitude with `try_into().context(...)` — a
failed conversion yields the context text as the error. -/
def sub_from_datetime (base_pdt : ParsiDateTime)
    (days months years hours minutes seconds : Option Nat) : RunResult ParsiDateTime :=
  match days with
  | some d => exceptToRun (sub_days base_pdt d) "subtracting days"
  | none => match months with
    | some m => exceptToRun (sub_months base_pdt m) "subtracting months"
    | none => match years with
      | some y => exceptToRun (sub_years base_pdt y) "subtracting years"
      | none => match hours with
        | some h => (match u64_try_into_i64 h with
          | .error _ => .err (.rendered "Hour value too large")
          | .ok h_i64 => exceptToRun (sub_duration base_pdt (Duration_hours h_i64)) "subtracting hours")
        | none => match minutes with
          | some m => (match u64_try_into_i64 m with
            | .error _ => .err (.rendered "Minute value too large")
            | .ok m_i64 => exceptToRun (sub_duration base_pdt (Duration_minutes m_i64)) "subtracting minutes")
          | none => match seconds with
            | some s => (match u64_try_into_i64 s with
              | .error _ => .err (.rendered "Second value too large")
              | .ok s_i64 => exceptToRun (sub_duration base_pdt (Duration_seconds s_i64)) "subtracting seconds")
            | none => .panic "No duration unit provided, should be caught by CLI parser."

/-- Modelled from the spec (§6): `ParsiDate::days_between`, the signed
number of elapsed whole days between two Persian dates through the
day-count representation (callers use the absolute value, so the sign
convention is immaterial to them). -/
def days_between (d1 d2 : ParsiDate) : Int :=
  (pToDays d2 : Int) - (pToDays d1 : Int)

/-- `get_days_diff` from `mitra-core/src/logic.rs`: `days_between` on the
date parts followed by `unsigned_abs()`.  The `Result` wrapper of the
source only forwards the engine error; the modelled `days_between` is
total (spec §6 types it as a plain integer), so the wrapper is dropped. -/
def get_days_diff (pdt1 pdt2 : ParsiDateTime) : Nat :=
  (days_between pdt1.date pdt2.date).natAbs

/-! ## `src/src/handlers.rs` -/

/-- `handle_add` from `src/src/handlers.rs`, parameterized by
`parse_input_datetime_or_date` (whose parsing engine lives in the
`parsidate` crate): counts the supplied duration units, bails on zero or
more than one, only then parses the base string and performs the
arithmetic; returns the pair handed to `print_result`. -/
def handle_add (parseInput : String → Except MitraError (ParsiDateTime × Bool))
    (base_dt_str : String)
    (days months years hours minutes seconds : Option Int) :
    RunResult (ParsiDateTime × Bool) :=
  let unit_count :=
    ([days, months, years, hours, minutes, seconds] : List (Option Int)).countP
      (fun o => o.isSome)
  if unit_count = 0 then
    .err (.rendered "Error: Please specify exactly one duration unit (--days, --months, --years, --hours, --minutes, or --seconds) to add.")
  else if 1 < unit_count then
    .err (.rendered "Error: Please specify only one duration unit at a time.")
  else match parseInput base_dt_str with
    | .error e => .err e
    | .ok (base_pdt, was_datetime) =>
      match days with
      | some d => (exceptToRun (add_days base_pdt d) "adding days").map (·, was_datetime)
      | none => match months with
        | some m => (exceptToRun (add_months base_pdt m) "adding months").map (·, was_datetime)
        | none => match years with
          | some y => (exceptToRun (add_years base_pdt y) "adding years").map (·, was_datetime)
          | none => match hours with
            | some h => (exceptToRun (add_duration base_pdt (Duration_hours h)) "adding hours").map (·, was_datetime)
            | none => match minutes with
              | some m => (exceptToRun (add_duration base_pdt (Duration_minutes m)) "adding minutes").map (·, was_datetime)
              | none => match seconds with
                | some s => (exceptToRun (add_duration base_pdt (Duration_seconds s)) "adding seconds").map (·, was_datetime)
                | none => .panic "Logic error: No duration unit found."

/-- `handle_sub` from `src/src/handlers.rs` (unsigned magnitudes;
try-into contexts carry the "for subtraction" suffix; the final
`unreachable!()` has Rust's default message). -/
def handle_sub (parseInput : String → Except MitraError (ParsiDateTime × Bool))
    (base_dt_str : String)
    (days months years hours minutes seconds : Option Nat) :
    RunResult (ParsiDateTime × Bool) :=
  let unit_count :=
    ([days, months, years, hours, minutes, seconds] : List (Option Nat)).countP
      (fun o => o.isSome)
  if unit_count = 0 then
    .err (.rendered "Error: Please specify exactly one duration unit (--days, --months, --years, --hours, --minutes, or --seconds) to subtract.")
  else if 1 < unit_count then
    .err (.rendered "Error: Please specify only one duration unit at a time.")
  else match parseInput base_dt_str with
    | .error e => .err e
    | .ok (base_pdt, was_datetime) =>
      match days with
      | some d => (exceptToRun (sub_days base_pdt d) "subtracting days").map (·, was_datetime)
      | none => match months with
        | some m => (exceptToRun (sub_months base_pdt m) "subtracting months").map (·, was_datetime)
        | none => match years with
          | some y => (exceptToRun (sub_years base_pdt y) "subtracting years").map (·, was_datetime)
          | none => match hours with
            | some h => (match u64_try_into_i64 h with
              | .error _ => .err (.rendered "Hour value too large for subtraction")
              | .ok h_i64 => (exceptToRun (sub_duration base_pdt (Duration_hours h_i64)) "subtracting hours").map (·, was_datetime))
            | none => match minutes with
              | some m => (match u64_try_into_i64 m with
                | .error _ => .err (.rendered "Minute value too large for subtraction")
                | .ok m_i64 => (exceptToRun (sub_duration base_pdt (Duration_minutes m_i64)) "subtracting minutes").map (·, was_datetime))
              | none => match seconds with
                | some s => (match u64_try_into_i64 s with
                  | .error _ => .err (.rendered "Second value too large for subtraction")
                  | .ok s_i64 => (exceptToRun (sub_duration base_pdt (Duration_seconds s_i64)) "subtracting seconds").map (·, was_datetime))
                | none => .panic "internal error: entered unreachable code"

/-- Rust `str::contains` for string patterns, on the character lists. -/
def strContains (hay needle : String) : Bool :=
  hay.data.tails.any (fun t => needle.data.isPrefixOf t)

/-- Which parser family `handle_parse` invoked: the full-datetime parser
`ParsiDateTime::parse` or the date-only parser `ParsiDate::parse`. -/
inductive ParseOutcome where
  | asDateTime (r : Except MitraError ParsiDateTime)
  | asDate (r : Except MitraError ParsiDate)
deriving Repr

/-- `handle_parse` from `src/src/handlers.rs`, parameterized by the two
parsing entry points of the `parsidate` crate: infers from the pattern
whether time components are expected and dispatches accordingly. -/
def handle_parse
    (parseDateTime : String → String → Except MitraError ParsiDateTime)
    (parseDate : String → String → Except MitraError ParsiDate)
    (input_string pattern : String) : ParseOutcome :=
  let expects_time := strContains pattern "%H" || strContains pattern "%M" ||
    strContains pattern "%S" || strContains pattern "%T"
  if expects_time then .asDateTime (parseDateTime input_string pattern)
  else .asDate (parseDate input_string pattern)

/-! ## `src/src/events.rs` -/

/-- A calendar event as deserialized from `events.json`. -/
structure Event where
  holiday : Bool
  month : Nat
  day : Nat
  title : String
  hijri_month : Option Nat
  hijri_day : Option Nat
deriving DecidableEq, Repr

/-- The processed event store behind the lazily initialized
`LOADED_DATA` static (the `events.json` payload itself is not among the
sources, so the store is a parameter; `reference_year = 0` is the
sentinel for a failed load). The two `HashMap<(u32, u32), Vec<Event>>`
maps become association lists. -/
structure LoadedEvents where
  reference_year : Int
  fixed_persian_events : List ((Nat × Nat) × List Event)
  mapped_hijri_events : List ((Nat × Nat) × List Event)

/-- `HashMap::get` on the association-list model. -/
def lookupEvents (m : List ((Nat × Nat) × List Event)) (key : Nat × Nat) :
    Option (List Event) :=
  (m.find? (fun kv => kv.1 == key)).map (fun kv => kv.2)

/-- `get_events_for_date` from `src/src/events.rs`: `None` on a failed
load; otherwise fixed Persian events for the `(month, day)` key, plus the
mapped Hijri events exactly when the query year equals the reference
year; `None` instead of an empty list. -/
def get_events_for_date (ld : LoadedEvents) (query_year : Int)
    (query_month query_day : Nat) : Option (List Event) :=
  if ld.reference_year = 0 then none
  else
    let key := (query_month, query_day)
    let results : List Event :=
      ((lookupEvents ld.fixed_persian_events key).getD []) ++
        (if query_year = ld.reference_year then
          (lookupEvents ld.mapped_hijri_events key).getD []
        else [])
    if results.isEmpty then none else some results

/-! ## Theorems -/

theorem pLeap_eq_mod (y : Nat) :
    pLeap y = (let r := y % 33
      r == 1 || r == 5 || r == 9 || r == 13 || r == 17 || r == 22 || r == 26 || r == 30) := by
  have h : (y : Int).tmod 33 = ((y % 33 : Nat) : Int) := by
    rw [Int.tmod_eq_emod (by positivity) (by norm_num)]
    push_cast
    rfl
  simp only [pLeap, is_leap_year, h]
  rw [Bool.eq_iff_iff]
  simp only [Bool.or_eq_true, beq_iff_eq]
  omega

theorem cumLen_shift (len : Nat → Nat) (a : Nat) :
    ∀ k, cumLen len a (k + 1) = len a + cumLen len (a + 1) k := by
  intro k
  induction k with
  | zero => simp [cumLen]
  | succ k ih =>
    show cumLen len a (k + 1) + len (a + (k + 1)) = _
    have harg : a + (k + 1) = a + 1 + k := by omega
    rw [ih, cumLen, harg]
    omega

theorem cumLen_mono (len : Nat → Nat) (a : Nat) {j k : Nat} (h : j ≤ k) :
    cumLen len a j ≤ cumLen len a k := by
  induction k with
  | zero =>
    have : j = 0 := by omega
    simp [this]
  | succ k ih =>
    rcases Nat.lt_or_ge j (k + 1) with hl | hg
    · calc cumLen len a j ≤ cumLen len a k := ih (by omega)
        _ ≤ cumLen len a (k + 1) := by rw [cumLen]; omega
    · have : j = k + 1 := by omega
      rw [this]

theorem cumLen_le_of_bound (len : Nat → Nat) (a c : Nat)
    (h : ∀ i, len i ≤ c) : ∀ k, cumLen len a k ≤ c * k := by
  intro k
  induction k with
  | zero => simp [cumLen]
  | succ k ih =>
    rw [cumLen]
    have := h (a + k)
    calc cumLen len a k + len (a + k) ≤ c * k + c := by omega
      _ = c * (k + 1) := by ring

theorem le_cumLen_of_bound (len : Nat → Nat) (a c : Nat)
    (h : ∀ i, c ≤ len i) : ∀ k, c * k ≤ cumLen len a k := by
  intro k
  induction k with
  | zero => simp [cumLen]
  | succ k ih =>
    rw [cumLen]
    have := h (a + k)
    have : c * (k + 1) = c * k + c := by ring
    omega

/-- Correctness of the inverse search: if `n` lies in the `j`-th block of
the cumulative sums starting at `a`, and the fuel reaches `j`, the search
returns the index `a + j` together with the offset of `n` in its block. -/
theorem splitDays_correct (len : Nat → Nat) :
    ∀ (fuel j a n : Nat), j ≤ fuel →
      cumLen len a j ≤ n → n < cumLen len a (j + 1) →
      splitDays len fuel a n = (a + j, n - cumLen len a j) := by
  intro fuel
  induction fuel with
  | zero =>
    intro j a n hj h1 h2
    have hj0 : j = 0 := by omega
    subst hj0
    simp [splitDays, cumLen] at *
  | succ fuel ih =>
    intro j a n hj h1 h2
    cases j with
    | zero =>
      have hn : n < len a := by
        have := h2
        rw [cumLen_shift] at this
        simp [cumLen] at *
        omega
      simp [splitDays, hn, cumLen] at *
    | succ j =>
      have hge : len a ≤ n := by
        have hc : cumLen len a 1 ≤ cumLen len a (j + 1) := cumLen_mono len a (by omega)
        have h1' : cumLen len a 1 = len a := by simp [cumLen]
        omega
      have hlt : ¬ n < len a := by omega
      rw [splitDays, if_neg hlt]
      have hshift1 : cumLen len a (j + 1) = len a + cumLen len (a + 1) j := cumLen_shift len a j
      have hshift2 : cumLen len a (j + 1 + 1) = len a + cumLen len (a + 1) (j + 1) := cumLen_shift len a (j + 1)
      have := ih j (a + 1) (n - len a) (by omega) (by omega) (by omega)
      rw [this]
      have : a + 1 + j = a + (j + 1) := by omega
      rw [this]
      congr 1
      omega

/-- Existence of the block: any `n` below the total of `K` blocks lies in
some block `j < K`. -/
theorem cumLen_exists_block (len : Nat → Nat) (a : Nat) :
    ∀ (K n : Nat), n < cumLen len a K →
      ∃ j, j < K ∧ cumLen len a j ≤ n ∧ n < cumLen len a (j + 1) := by
  intro K
  induction K with
  | zero => intro n h; simp [cumLen] at h
  | succ K ih =>
    intro n h
    rcases Nat.lt_or_ge n (cumLen len a K) with hl | hg
    · obtain ⟨j, hj, h1, h2⟩ := ih n hl
      exact ⟨j, by omega, h1, h2⟩
    · exact ⟨K, by omega, hg, h⟩

theorem cumLen_succ (len : Nat → Nat) (a k : Nat) :
    cumLen len a (k + 1) = cumLen len a k + len (a + k) := rfl

theorem cumLen_twelve (len : Nat → Nat) (a : Nat) :
    cumLen len a 12 =
      0 + len a + len (a + 1) + len (a + 2) + len (a + 3) + len (a + 4) +
        len (a + 5) + len (a + 6) + len (a + 7) + len (a + 8) + len (a + 9) +
        len (a + 10) + len (a + 11) := rfl

/-- The Persian month lengths of a year sum to its year length. -/
theorem pMonthLen_sum (y : Nat) : cumLen (pMonthLen y) 1 12 = pYearLen y := by
  rw [cumLen_twelve]
  unfold pYearLen pLeap
  cases h : is_leap_year (y : Int) <;>
    simp [pMonthLen, days_in_month, h]

/-- The Gregorian month lengths of a year sum to its year length. -/
theorem gMonthLen_sum (y : Nat) : cumLen (gMonthLen y) 1 12 = gYearLen y := by
  rw [cumLen_twelve]
  unfold gYearLen
  cases h : gregorianLeap y <;> simp [gMonthLen, h]

theorem pDaysBeforeYear_succ (y : Nat) (h : 1 ≤ y) :
    pDaysBeforeYear (y + 1) = pDaysBeforeYear y + pYearLen y := by
  unfold pDaysBeforeYear
  have h1 : y + 1 - 1 = (y - 1) + 1 := by omega
  rw [h1, cumLen_succ]
  have h2 : 1 + (y - 1) = y := by omega
  rw [h2]

/-- For a valid month/day combination, the offset inside the year stays
below the year length. -/
theorem pInYearOffset_lt (y m day : Nat) (hm1 : 1 ≤ m) (hm2 : m ≤ 12)
    (hd1 : 1 ≤ day) (hd2 : day ≤ pMonthLen y m) :
    pDaysBeforeMonth y m + (day - 1) < pYearLen y := by
  have hstep : cumLen (pMonthLen y) 1 ((m - 1) + 1) =
      cumLen (pMonthLen y) 1 (m - 1) + pMonthLen y (1 + (m - 1)) := cumLen_succ _ _ _
  have hmm : 1 + (m - 1) = m := by omega
  rw [hmm] at hstep
  have hmono : cumLen (pMonthLen y) 1 ((m - 1) + 1) ≤ cumLen (pMonthLen y) 1 12 :=
    cumLen_mono _ _ (by omega)
  have hsum := pMonthLen_sum y
  unfold pDaysBeforeMonth
  omega

/-- Day-count bounds of a valid date: `pToDays` lands inside the block of
its year. -/
theorem pToDays_bounds (d : ParsiDate) (h : d.isValid) :
    pDaysBeforeYear d.year ≤ pToDays d ∧ pToDays d < pDaysBeforeYear (d.year + 1) := by
  obtain ⟨hy1, hy2, hm1, hm2, hd1, hd2⟩ := h
  have hoff := pInYearOffset_lt d.year d.month d.day hm1 hm2 hd1 hd2
  have hsucc := pDaysBeforeYear_succ d.year hy1
  unfold pToDays
  omega

/-- The Persian day-count decomposition inverts the day count on every
valid date. -/
theorem pFromDays_pToDays (d : ParsiDate) (h : d.isValid) :
    pFromDays (pToDays d) = d := by
  obtain ⟨hy1, hy2, hm1, hm2, hd1, hd2⟩ := h
  have hbounds := pToDays_bounds d ⟨hy1, hy2, hm1, hm2, hd1, hd2⟩
  -- year split
  have hyblock1 : cumLen pYearLen 1 (d.year - 1) ≤ pToDays d := by
    have : pDaysBeforeYear d.year = cumLen pYearLen 1 (d.year - 1) := rfl
    omega
  have hyblock2 : pToDays d < cumLen pYearLen 1 ((d.year - 1) + 1) := by
    have : pDaysBeforeYear (d.year + 1) = cumLen pYearLen 1 (d.year + 1 - 1) := rfl
    have h2 : d.year + 1 - 1 = (d.year - 1) + 1 := by omega
    rw [this, h2] at hbounds
    omega
  have hysplit := splitDays_correct pYearLen 9998 (d.year - 1) 1 (pToDays d)
    (by omega) hyblock1 hyblock2
  have hy : 1 + (d.year - 1) = d.year := by omega
  rw [hy] at hysplit
  -- remainder after the year
  have hrem : pToDays d - cumLen pYearLen 1 (d.year - 1) =
      pDaysBeforeMonth d.year d.month + (d.day - 1) := by
    have : pDaysBeforeYear d.year = cumLen pYearLen 1 (d.year - 1) := rfl
    unfold pToDays at *
    omega
  -- month split
  have hmblock1 : cumLen (pMonthLen d.year) 1 (d.month - 1) ≤
      pDaysBeforeMonth d.year d.month + (d.day - 1) := by
    have : pDaysBeforeMonth d.year d.month = cumLen (pMonthLen d.year) 1 (d.month - 1) := rfl
    omega
  have hmblock2 : pDaysBeforeMonth d.year d.month + (d.day - 1) <
      cumLen (pMonthLen d.year) 1 ((d.month - 1) + 1) := by
    have hstep : cumLen (pMonthLen d.year) 1 ((d.month - 1) + 1) =
        cumLen (pMonthLen d.year) 1 (d.month - 1) + pMonthLen d.year (1 + (d.month - 1)) :=
      cumLen_succ _ _ _
    have hmm : 1 + (d.month - 1) = d.month := by omega
    rw [hmm] at hstep
    have : pDaysBeforeMonth d.year d.month = cumLen (pMonthLen d.year) 1 (d.month - 1) := rfl
    omega
  have hmsplit := splitDays_correct (pMonthLen d.year) 11 (d.month - 1) 1
    (pDaysBeforeMonth d.year d.month + (d.day - 1)) (by omega) hmblock1 hmblock2
  have hm : 1 + (d.month - 1) = d.month := by omega
  rw [hm] at hmsplit
  -- assemble
  simp only [pFromDays, hysplit, hrem, hmsplit]
  have hday : pDaysBeforeMonth d.year d.month + (d.day - 1) -
      cumLen (pMonthLen d.year) 1 (d.month - 1) + 1 = d.day := by
    have : pDaysBeforeMonth d.year d.month = cumLen (pMonthLen d.year) 1 (d.month - 1) := rfl
    omega
  rw [hday]

/-- The Gregorian decomposition is a section of the Gregorian day count
for every day number below year 10701. -/
theorem gToDays_gFromDays (n : Nat) (h : n < gDaysBeforeYear 10701) :
    gToDays (gFromDays n) = n := by
  have hK : gDaysBeforeYear 10701 = cumLen gYearLen 1 10700 := by
    unfold gDaysBeforeYear
    norm_num
  rw [hK] at h
  obtain ⟨j, hj, hb1, hb2⟩ := cumLen_exists_block gYearLen 1 10700 n h
  have hysplit := splitDays_correct gYearLen 10700 j 1 n (by omega) hb1 hb2
  -- the remainder lies under the year length
  have hylen : cumLen gYearLen 1 (j + 1) = cumLen gYearLen 1 j + gYearLen (1 + j) :=
    cumLen_succ _ _ _
  have hrem_lt : n - cumLen gYearLen 1 j < gYearLen (1 + j) := by omega
  have hmsum : cumLen (gMonthLen (1 + j)) 1 12 = gYearLen (1 + j) := gMonthLen_sum (1 + j)
  have hrem_lt' : n - cumLen gYearLen 1 j < cumLen (gMonthLen (1 + j)) 1 12 := by omega
  obtain ⟨j', hj', hc1, hc2⟩ :=
    cumLen_exists_block (gMonthLen (1 + j)) 1 12 (n - cumLen gYearLen 1 j) hrem_lt'
  have hmsplit := splitDays_correct (gMonthLen (1 + j)) 11 j' 1
    (n - cumLen gYearLen 1 j) (by omega) hc1 hc2
  simp only [gFromDays, hysplit, hmsplit]
  unfold gToDays gDaysBeforeYear gDaysBeforeMonth
  simp only []
  have e1 : 1 + j - 1 = j := by omega
  have e2 : 1 + j' - 1 = j' := by omega
  rw [e1, e2]
  omega

theorem pYearLen_le (i : Nat) : pYearLen i ≤ 366 := by
  unfold pYearLen; split <;> omega

theorem gYearLen_le (i : Nat) : gYearLen i ≤ 366 := by
  unfold gYearLen; split <;> omega

theorem gYearLen_ge (i : Nat) : 365 ≤ gYearLen i := by
  unfold gYearLen; split <;> omega

theorem gMonthLen_le (y : Nat) (m : Nat) : gMonthLen y m ≤ 31 := by
  unfold gMonthLen
  split <;> (try split) <;> omega

/-- The image of the supported Persian range under the conversion stays
well below the fuel horizon of the Gregorian decomposition. -/
theorem pToDays_add_epoch_lt (d : ParsiDate) (h : d.isValid) :
    pToDays d + epochOffset < gDaysBeforeYear 10701 := by
  obtain ⟨hy1, hy2, hm1, hm2, hd1, hd2⟩ := h
  have hb1 : pToDays d < pDaysBeforeYear (d.year + 1) :=
    (pToDays_bounds d ⟨hy1, hy2, hm1, hm2, hd1, hd2⟩).2
  have hmono : pDaysBeforeYear (d.year + 1) ≤ pDaysBeforeYear 10000 := by
    unfold pDaysBeforeYear
    exact cumLen_mono _ _ (by omega)
  have hle1 : pDaysBeforeYear 10000 ≤ 366 * 9999 := by
    unfold pDaysBeforeYear
    norm_num
    exact cumLen_le_of_bound pYearLen 1 366 pYearLen_le 9999
  have heo : epochOffset ≤ 366 * 621 + 31 * 2 + 20 := by
    have h1 : gDaysBeforeYear 622 ≤ 366 * 621 := by
      unfold gDaysBeforeYear
      norm_num
      exact cumLen_le_of_bound gYearLen 1 366 gYearLen_le 621
    have h2 : gDaysBeforeMonth 622 3 ≤ 31 * 2 := by
      unfold gDaysBeforeMonth
      norm_num
      exact cumLen_le_of_bound (gMonthLen 622) 1 31 (gMonthLen_le 622) 2
    have h3 : epochOffset = gDaysBeforeYear 622 + gDaysBeforeMonth 622 3 + (21 - 1) := by
      unfold epochOffset gToDays
      rfl
    omega
  have hge : 365 * 10700 ≤ gDaysBeforeYear 10701 := by
    unfold gDaysBeforeYear
    norm_num
    exact le_cumLen_of_bound gYearLen 1 365 gYearLen_ge 10700
  omega

theorem except_mapError_ok {ε ε' α : Type} (f : ε → ε') (a : α) :
    Except.mapError f (Except.ok a) = (Except.ok a : Except ε' α) := rfl

theorem except_ok_bind {ε α β : Type} (a : α) (f : α → Except ε β) :
    (Except.ok a : Except ε α).bind f = f a := rfl

/-- **C1.** For every valid Persian datetime `d`, converting to Gregorian
and back is the identity, the time-of-day components passing through
unchanged: `convert_from_gregorian (convert_to_gregorian d) = d`. -/
theorem convert_round_trip (dt : ParsiDateTime) (h : dt.isValid) :
    (convert_to_gregorian dt).bind convert_from_gregorian = Except.ok dt := by
  obtain ⟨hdv, hh, hm, hs⟩ := h
  have hlt := pToDays_add_epoch_lt dt.date hdv
  have hback : gToDays (gFromDays (pToDays dt.date + epochOffset)) =
      pToDays dt.date + epochOffset := gToDays_gFromDays _ hlt
  unfold convert_to_gregorian toGregorian
  rw [if_pos ⟨hdv, hh, hm, hs⟩, except_mapError_ok, except_ok_bind]
  unfold convert_from_gregorian fromGregorian
  dsimp only
  rw [hback]
  rw [if_pos (by omega : epochOffset ≤ pToDays dt.date + epochOffset)]
  have hsub : pToDays dt.date + epochOffset - epochOffset = pToDays dt.date := by omega
  rw [hsub, pFromDays_pToDays dt.date hdv]
  rw [if_pos hdv, except_mapError_ok]

/-- Witness for C1 at the concrete valid datetime 0005-12-30 23:59:59
(year 5 is leap, so Esfand 30 exists). -/
theorem convert_round_trip_witness :
    (⟨⟨5, 12, 30⟩, 23, 59, 59⟩ : ParsiDateTime).isValid ∧
      (convert_to_gregorian ⟨⟨5, 12, 30⟩, 23, 59, 59⟩).bind convert_from_gregorian =
        Except.ok ⟨⟨5, 12, 30⟩, 23, 59, 59⟩ :=
  ⟨by decide, convert_round_trip _ (by decide)⟩

/-- Sanity fixture from spec §8: 1403/1/1 converts to Gregorian
2024-03-20. -/
theorem conversion_fixture_1403 : toGregorian ⟨⟨1403, 1, 1⟩, 0, 0, 0⟩ =
    Except.ok ⟨⟨2024, 3, 20⟩, 0, 0, 0⟩ := by rfl

/-- **C2.** For every year and month, `days_in_month` returns 31 for
months 1–6, 30 for months 7–11, for month 12 returns 30 exactly when
`is_leap_year` holds (29 otherwise), and 0 for any month outside
[1, 12]. -/
theorem days_in_month_spec (year : Int) (month : Nat) :
    (1 ≤ month → month ≤ 6 → days_in_month year month = 31) ∧
      (7 ≤ month → month ≤ 11 → days_in_month year month = 30) ∧
      (month = 12 →
        days_in_month year month = (if is_leap_year year then 30 else 29)) ∧
      (month = 0 ∨ 13 ≤ month → days_in_month year month = 0) := by
  unfold days_in_month
  refine ⟨fun h1 h2 => ?_, fun h1 h2 => ?_, fun h => ?_, fun h => ?_⟩ <;>
    split_ifs <;> omega

/-- Witness for C2 at concrete inputs covering all four cases (1403 is a
leap year and 1404 is not). -/
theorem days_in_month_spec_witness :
    days_in_month 1403 3 = 31 ∧ days_in_month 1403 9 = 30 ∧
      days_in_month 1403 12 = 30 ∧ days_in_month 1404 12 = 29 ∧
      days_in_month 1403 13 = 0 := by
  refine ⟨(days_in_month_spec 1403 3).1 (by decide) (by decide),
    (days_in_month_spec 1403 9).2.1 (by decide) (by decide), ?_, ?_,
    (days_in_month_spec 1403 13).2.2.2 (Or.inr (by decide))⟩
  · rw [(days_in_month_spec 1403 12).2.2.1 rfl]
    decide
  · rw [(days_in_month_spec 1404 12).2.2.1 rfl]
    decide

/-- **C3.** `get_days_diff` returns the absolute value of the signed
whole-day difference of the two dates, and is therefore symmetric under
swapping its arguments. -/
theorem get_days_diff_symm (a b : ParsiDateTime) :
    get_days_diff a b = (days_between a.date b.date).natAbs ∧
      get_days_diff a b = get_days_diff b a := by
  refine ⟨rfl, ?_⟩
  unfold get_days_diff days_between
  omega

/-- **C4.** `handle_parse` invokes the full-datetime parser exactly when
the pattern contains one of the time specifiers `%H`, `%M`, `%S`, `%T`
(as substrings), and the date-only parser otherwise — for every parsing
engine it may be linked against. -/
theorem handle_parse_dispatch
    (parseDateTime : String → String → Except MitraError ParsiDateTime)
    (parseDate : String → String → Except MitraError ParsiDate)
    (input_string pattern : String) :
    (handle_parse parseDateTime parseDate input_string pattern =
        .asDateTime (parseDateTime input_string pattern) ↔
      (strContains pattern "%H" = true ∨ strContains pattern "%M" = true ∨
        strContains pattern "%S" = true ∨ strContains pattern "%T" = true)) ∧
    (handle_parse parseDateTime parseDate input_string pattern =
        .asDate (parseDate input_string pattern) ↔
      ¬ (strContains pattern "%H" = true ∨ strContains pattern "%M" = true ∨
        strContains pattern "%S" = true ∨ strContains pattern "%T" = true)) := by
  unfold handle_parse
  dsimp only
  split_ifs with h
  · simp only [Bool.or_eq_true] at h
    constructor
    · exact ⟨fun _ => by tauto, fun _ => rfl⟩
    · constructor
      · intro hc
        cases hc
      · intro hc
        exact absurd (by tauto) hc
  · simp only [Bool.or_eq_true] at h
    constructor
    · constructor
      · intro hc
        cases hc
      · intro hc
        exact absurd (by tauto) h
    · exact ⟨fun _ => by tauto, fun _ => rfl⟩

/-- **C5.** In `sub_from_datetime`, the unsigned-to-signed conversion of
an hours, minutes or seconds magnitude strictly above `i64::MAX` makes
the function return the conversion error (no silent wrapping); for
magnitudes at most `i64::MAX` the conversion itself always succeeds. -/
theorem sub_from_datetime_conversion (b : ParsiDateTime) (n : Nat) :
    (i64_max < n →
      sub_from_datetime b none none none (some n) none none =
          .err (.rendered "Hour value too large") ∧
        sub_from_datetime b none none none none (some n) none =
          .err (.rendered "Minute value too large") ∧
        sub_from_datetime b none none none none none (some n) =
          .err (.rendered "Second value too large")) ∧
      (n ≤ i64_max → u64_try_into_i64 n = .ok (n : Int)) := by
  constructor
  · intro h
    have hn : ¬ n ≤ i64_max := by omega
    refine ⟨?_, ?_, ?_⟩ <;> simp [sub_from_datetime, u64_try_into_i64, hn]
  · intro h
    simp [u64_try_into_i64, h]

/-- Witness for C5: `i64::MAX + 1` takes the error path in all three
time branches, while a small magnitude converts successfully. -/
theorem sub_from_datetime_conversion_witness :
    i64_max < 9223372036854775808 ∧
      sub_from_datetime ⟨⟨1, 1, 1⟩, 0, 0, 0⟩ none none none
          (some 9223372036854775808) none none =
        .err (.rendered "Hour value too large") ∧
      (5 ≤ i64_max ∧ u64_try_into_i64 5 = .ok (5 : Int)) :=
  ⟨by decide,
    ((sub_from_datetime_conversion ⟨⟨1, 1, 1⟩, 0, 0, 0⟩ 9223372036854775808).1
      (by decide)).1,
    by decide,
    (sub_from_datetime_conversion ⟨⟨1, 1, 1⟩, 0, 0, 0⟩ 5).2 (by decide)⟩

/-- **C6.** `handle_add` and `handle_sub` validate the number of supplied
duration units before doing anything else: with zero units or more than
one unit they return the corresponding bail error — independently of the
base string and of the parsing function, so the base date string is never
parsed and no arithmetic and no panic happens. -/
theorem handle_unit_count_validation
    (parseInput : String → Except MitraError (ParsiDateTime × Bool))
    (base : String)
    (da mo yr ho mi se : Option Int) (da' mo' yr' ho' mi' se' : Option Nat) :
    (([da, mo, yr, ho, mi, se] : List (Option Int)).countP (fun o => o.isSome) = 0 →
      handle_add parseInput base da mo yr ho mi se =
        .err (.rendered "Error: Please specify exactly one duration unit (--days, --months, --years, --hours, --minutes, or --seconds) to add.")) ∧
    (1 < ([da, mo, yr, ho, mi, se] : List (Option Int)).countP (fun o => o.isSome) →
      handle_add parseInput base da mo yr ho mi se =
        .err (.rendered "Error: Please specify only one duration unit at a time.")) ∧
    (([da', mo', yr', ho', mi', se'] : List (Option Nat)).countP (fun o => o.isSome) = 0 →
      handle_sub parseInput base da' mo' yr' ho' mi' se' =
        .err (.rendered "Error: Please specify exactly one duration unit (--days, --months, --years, --hours, --minutes, or --seconds) to subtract.")) ∧
    (1 < ([da', mo', yr', ho', mi', se'] : List (Option Nat)).countP (fun o => o.isSome) →
      handle_sub parseInput base da' mo' yr' ho' mi' se' =
        .err (.rendered "Error: Please specify only one duration unit at a time.")) := by
  refine ⟨fun h0 => ?_, fun h1 => ?_, fun h0 => ?_, fun h1 => ?_⟩
  · unfold handle_add
    rw [if_pos h0]
  · unfold handle_add
    rw [if_neg (by omega), if_pos h1]
  · unfold handle_sub
    rw [if_pos h0]
  · unfold handle_sub
    rw [if_neg (by omega), if_pos h1]

/-- Witness for C6: no units at all, and two units at once, at a parsing
function the result provably never consults. -/
theorem handle_unit_count_validation_witness :
    handle_add (fun _ => Except.error (MitraError.rendered "unused parser"))
        "2024-99-99 garbage" none none none none none none =
      .err (.rendered "Error: Please specify exactly one duration unit (--days, --months, --years, --hours, --minutes, or --seconds) to add.") ∧
    handle_sub (fun _ => Except.error (MitraError.rendered "unused parser"))
        "2024-99-99 garbage" (some 1) (some 2) none none none none =
      .err (.rendered "Error: Please specify only one duration unit at a time.") :=
  ⟨(handle_unit_count_validation _ _ none none none none none none
      none none none none none none).1 (by decide),
    (handle_unit_count_validation _ _ none none none none none none
      (some 1) (some 2) none none none none).2.2.2 (by decide)⟩

/-- Counterexample to **C7** as stated: at the concrete failing input
1/1/1 minus one day, the engine function `add_to_datetime` does not
return the component error `ArithmeticOverflow` unmodified — it returns
an error already carrying presentation text built inside the engine by
`map_parsidate_error`. -/
theorem error_unmodified_counterexample :
    add_days ⟨⟨1, 1, 1⟩, 0, 0, 0⟩ (-1) = .error .ArithmeticOverflow ∧
      add_to_datetime ⟨⟨1, 1, 1⟩, 0, 0, 0⟩ (some (-1)) none none none none none =
        .err (.rendered "Error while adding days: Date arithmetic resulted in overflow/underflow or went outside supported year range [1, 9999]") ∧
      MitraError.rendered "Error while adding days: Date arithmetic resulted in overflow/underflow or went outside supported year range [1, 9999]" ≠
        MitraError.raw .ArithmeticOverflow := by
  refine ⟨rfl, by decide, by decide⟩

/-- **C7 (amended).** A component failure is converted at the engine
call site into a rendered presentation-text error (operation context
plus message text chosen by `map_parsidate_error`), and that rendered
error — never the raw typed error — is what propagates to the ultimate
caller, whose only remaining job is printing it. -/
theorem add_to_datetime_renders_errors (b : ParsiDateTime) (d : Int) (e : DateError)
    (h : add_days b d = .error e) :
    add_to_datetime b (some d) none none none none none =
        .err (map_parsidate_error e "adding days") ∧
      ∀ e' : DateError, map_parsidate_error e "adding days" ≠ .raw e' := by
  constructor
  · simp [add_to_datetime, exceptToRun, h]
  · intro e'
    simp [map_parsidate_error]

/-- Witness for the amended C7 at the concrete failing input. -/
theorem add_to_datetime_renders_errors_witness :
    add_to_datetime ⟨⟨1, 1, 1⟩, 0, 0, 0⟩ (some (-1)) none none none none none =
        .err (map_parsidate_error .ArithmeticOverflow "adding days") ∧
      map_parsidate_error .ArithmeticOverflow "adding days" ≠
        MitraError.raw .ArithmeticOverflow :=
  ⟨(add_to_datetime_renders_errors ⟨⟨1, 1, 1⟩, 0, 0, 0⟩ (-1) .ArithmeticOverflow (by rfl)).1,
    (add_to_datetime_renders_errors ⟨⟨1, 1, 1⟩, 0, 0, 0⟩ (-1) .ArithmeticOverflow (by rfl)).2
      .ArithmeticOverflow⟩

theorem exceptToRun_ne_panic {α : Type} (r : Except DateError α) (ctx msg : String) :
    exceptToRun r ctx ≠ .panic msg := by
  cases r <;> simp [exceptToRun]

/-- **C8.** With all six duration units `None`, `add_to_datetime` and
`sub_from_datetime` hit the `unreachable!` panic branch instead of
returning an error value; with at least one unit supplied the panic
branch is unreachable. -/
theorem datetime_unit_panic (b : ParsiDateTime)
    (da mo yr ho mi se : Option Int) (da' mo' yr' ho' mi' se' : Option Nat) :
    add_to_datetime b none none none none none none =
        .panic "No duration unit provided, should be caught by CLI parser." ∧
      sub_from_datetime b none none none none none none =
        .panic "No duration unit provided, should be caught by CLI parser." ∧
      (da.isSome = true ∨ mo.isSome = true ∨ yr.isSome = true ∨
          ho.isSome = true ∨ mi.isSome = true ∨ se.isSome = true →
        ∀ msg, add_to_datetime b da mo yr ho mi se ≠ .panic msg) ∧
      (da'.isSome = true ∨ mo'.isSome = true ∨ yr'.isSome = true ∨
          ho'.isSome = true ∨ mi'.isSome = true ∨ se'.isSome = true →
        ∀ msg, sub_from_datetime b da' mo' yr' ho' mi' se' ≠ .panic msg) := by
  refine ⟨rfl, rfl, ?_, ?_⟩
  · intro hsome msg
    cases da with
    | some d => exact exceptToRun_ne_panic _ _ _
    | none => cases mo with
      | some m => exact exceptToRun_ne_panic _ _ _
      | none => cases yr with
        | some v => exact exceptToRun_ne_panic _ _ _
        | none => cases ho with
          | some v => exact exceptToRun_ne_panic _ _ _
          | none => cases mi with
            | some v => exact exceptToRun_ne_panic _ _ _
            | none => cases se with
              | some v => exact exceptToRun_ne_panic _ _ _
              | none => simp at hsome
  · intro hsome msg
    cases da' with
    | some d => exact exceptToRun_ne_panic _ _ _
    | none => cases mo' with
      | some m => exact exceptToRun_ne_panic _ _ _
      | none => cases yr' with
        | some v => exact exceptToRun_ne_panic _ _ _
        | none => cases ho' with
          | some v =>
            show (match u64_try_into_i64 v with
              | .error _ => RunResult.err (.rendered "Hour value too large")
              | .ok h_i64 =>
                exceptToRun (sub_duration b (Duration_hours h_i64)) "subtracting hours") ≠ _
            cases u64_try_into_i64 v with
            | error e => simp
            | ok w => exact exceptToRun_ne_panic _ _ _
          | none => cases mi' with
            | some v =>
              show (match u64_try_into_i64 v with
                | .error _ => RunResult.err (.rendered "Minute value too large")
                | .ok m_i64 =>
                  exceptToRun (sub_duration b (Duration_minutes m_i64)) "subtracting minutes") ≠ _
              cases u64_try_into_i64 v with
              | error e => simp
              | ok w => exact exceptToRun_ne_panic _ _ _
            | none => cases se' with
              | some v =>
                show (match u64_try_into_i64 v with
                  | .error _ => RunResult.err (.rendered "Second value too large")
                  | .ok s_i64 =>
                    exceptToRun (sub_duration b (Duration_seconds s_i64)) "subtracting seconds") ≠ _
                cases u64_try_into_i64 v with
                | error e => simp
                | ok w => exact exceptToRun_ne_panic _ _ _
              | none => simp at hsome

/-- Witness for C8: one unit supplied cannot reach the panic branch. -/
theorem datetime_unit_panic_witness :
    (some (1 : Int)).isSome = true ∧
      add_to_datetime ⟨⟨1, 1, 1⟩, 0, 0, 0⟩ (some 1) none none none none none ≠
        .panic "No duration unit provided, should be caught by CLI parser." :=
  ⟨rfl, (datetime_unit_panic ⟨⟨1, 1, 1⟩, 0, 0, 0⟩ (some 1) none none none none none
      none none none none none none).2.2.1 (Or.inl rfl)
    "No duration unit provided, should be caught by CLI parser."⟩

/-- **C9.** `get_events_for_date` never returns `some []`: it returns
`none` exactly when the data failed to load (sentinel reference year 0)
or the combined event list for the `(month, day)` key — fixed events
plus, when the query year equals the reference year, mapped Hijri
events — is empty; otherwise the returned list is that combined
non-empty list. -/
theorem get_events_eq (ld : LoadedEvents) (y : Int) (m d : Nat) :
    get_events_for_date ld y m d =
      (if ld.reference_year = 0 then none
      else if (lookupEvents ld.fixed_persian_events (m, d)).getD [] ++
          (if y = ld.reference_year then
            (lookupEvents ld.mapped_hijri_events (m, d)).getD []
          else []) = [] then none
      else some ((lookupEvents ld.fixed_persian_events (m, d)).getD [] ++
          (if y = ld.reference_year then
            (lookupEvents ld.mapped_hijri_events (m, d)).getD []
          else []))) := by
  unfold get_events_for_date
  dsimp only
  split_ifs <;> simp_all [List.isEmpty_eq_true]

theorem get_events_never_some_empty (ld : LoadedEvents) (y : Int) (m d : Nat) :
    (∀ l, get_events_for_date ld y m d = some l → l ≠ []) ∧
      (get_events_for_date ld y m d = none ↔
        (ld.reference_year = 0 ∨
          (lookupEvents ld.fixed_persian_events (m, d)).getD [] ++
              (if y = ld.reference_year then
                (lookupEvents ld.mapped_hijri_events (m, d)).getD []
              else []) = [])) := by
  rw [get_events_eq]
  by_cases h0 : ld.reference_year = 0
  · rw [if_pos h0]
    constructor
    · intro l hl
      cases hl
    · simp [h0]
  · rw [if_neg h0]
    by_cases hc : (lookupEvents ld.fixed_persian_events (m, d)).getD [] ++
        (if y = ld.reference_year then
          (lookupEvents ld.mapped_hijri_events (m, d)).getD []
        else []) = []
    · rw [if_pos hc]
      constructor
      · intro l hl
        cases hl
      · simp [h0, hc]
    · rw [if_neg hc]
      constructor
      · intro l hl
        injection hl with hl'
        rw [← hl']
        exact hc
      · simp [h0, hc]

/-- Witness for C9's none-characterization at a store with one fixed
event: a matching query returns a non-empty list, a non-matching one
returns `none`. -/
theorem get_events_never_some_empty_witness :
    get_events_for_date
        ⟨1404, [((1, 1), [⟨true, 1, 1, "Nowruz", none, none⟩])], []⟩ 1300 1 1 =
      some [⟨true, 1, 1, "Nowruz", none, none⟩] ∧
    [(⟨true, 1, 1, "Nowruz", none, none⟩ : Event)] ≠ [] :=
  ⟨by decide,
    (get_events_never_some_empty
        ⟨1404, [((1, 1), [⟨true, 1, 1, "Nowruz", none, none⟩])], []⟩ 1300 1 1).1
      [⟨true, 1, 1, "Nowruz", none, none⟩] (by decide)⟩

/-- **C10.** After a successful load, the list produced by
`get_events_for_date` is exactly the fixed Persian events stored under
the `(month, day)` key — included for every query year — followed by the
mapped Hijri events under that key if and only if the query year equals
the reference year. -/
theorem mapped_events_iff_reference_year (ld : LoadedEvents)
    (h : ld.reference_year ≠ 0) (y : Int) (m d : Nat) :
    (get_events_for_date ld y m d).getD [] =
      (lookupEvents ld.fixed_persian_events (m, d)).getD [] ++
        (if y = ld.reference_year then
          (lookupEvents ld.mapped_hijri_events (m, d)).getD []
        else []) := by
  rw [get_events_eq, if_neg h]
  by_cases hc : (lookupEvents ld.fixed_persian_events (m, d)).getD [] ++
      (if y = ld.reference_year then
        (lookupEvents ld.mapped_hijri_events (m, d)).getD []
      else []) = []
  · rw [if_pos hc, hc]
    rfl
  · rw [if_neg hc]
    rfl

/-- Witness for C10 at a concrete store holding one fixed and one mapped
event under the same key, queried in the reference year. -/
theorem mapped_events_iff_reference_year_witness :
    (⟨1404, [((1, 1), [⟨true, 1, 1, "Nowruz", none, none⟩])],
        [((1, 1), [⟨false, 1, 1, "Hijri feast", some 10, some 2⟩])]⟩ :
          LoadedEvents).reference_year ≠ 0 ∧
      (get_events_for_date
          ⟨1404, [((1, 1), [⟨true, 1, 1, "Nowruz", none, none⟩])],
            [((1, 1), [⟨false, 1, 1, "Hijri feast", some 10, some 2⟩])]⟩
          1404 1 1).getD [] =
        (lookupEvents [((1, 1), [⟨true, 1, 1, "Nowruz", none, none⟩])] (1, 1)).getD [] ++
          (if (1404 : Int) = (1404 : Int) then
            (lookupEvents [((1, 1), [⟨false, 1, 1, "Hijri feast", some 10, some 2⟩])]
              (1, 1)).getD []
          else []) :=
  ⟨by decide,
    mapped_events_iff_reference_year
      ⟨1404, [((1, 1), [⟨true, 1, 1, "Nowruz", none, none⟩])],
        [((1, 1), [⟨false, 1, 1, "Hijri feast", some 10, some 2⟩])]⟩
      (by decide) 1404 1 1⟩

end Mitra
